import Mathlib

/-!
Shallow embedding of the `transportnsw` custom component: the trip response
model (`transportnsw_client/model.py`), the journey utilities
(`transportnsw_client/utils.py`), the HTTP client's request construction
(`transportnsw_client/__init__.py`), the time-bucketed realtime-feed cache
(`GTFSCache` in `transportnsw/__init__.py`) and the retrieval orchestrator
(`async_update_data` in `transportnsw/__init__.py`).

Conventions of the embedding:
* Python `None` becomes `Option.none`; an attribute access on `None` (an
  `AttributeError` at runtime) makes the embedded function return
  `Except.error PyErr.attributeError`.
* `datetime.datetime` values are opaque to every claim: they are modelled by
  `PyDateTime`, carrying exactly the two renderings the client extracts with
  `strftime` (`%Y%m%d` and `%H%M`).
* `decimal.Decimal` fare amounts are modelled exactly, by `ℚ`.
* Wall-clock time is modelled by an exact `ℚ` number of seconds; Python's
  `round` (banker's rounding, half to even) is `pythonRound`.
* HTTP requests are cut at the transmission boundary: `get_trip` returns the
  association list of query parameters it would transmit (`Except.ok`), or the
  error it raises before transmitting anything (`Except.error`); the realtime
  feed fetch is an explicit function argument `fetch`, indexed by the number
  of fetches already performed so that distinct fetch invocations can be told
  apart.
-/

deriving instance DecidableEq for Except

namespace TransportNSW

/-- Python runtime errors that the embedded functions can raise.
`attributeError` models the `AttributeError` raised by an attribute access on
`None` (e.g. `leg.transportation.product` when `transportation` is `None`). -/
inductive PyErr where
  | attributeError
deriving DecidableEq, Repr

/-- Errors raised by `TransportNSWClient`. `assertionError` models Python's
`AssertionError`, which is what `get_trip` raises for mutually exclusive
arguments; it is the realization of the spec's `ConfigurationError` taxon. -/
inductive ClientError where
  | assertionError (msg : String)
deriving DecidableEq, Repr

/-- A `datetime.datetime`, kept opaque except for the two `strftime`
renderings the client uses: `ymd` is `strftime("%Y%m%d")` and `hm` is
`strftime("%H%M")`. -/
structure PyDateTime where
  ymd : String
  hm : String
deriving DecidableEq, Repr

/-! ### Trip response model (`transportnsw_client/model.py`) -/

/-- `RouteProductClass` from `model.py`: a plain `enum.Enum` (not `IntEnum`)
over the closed set of numeric product-class codes. -/
inductive RouteProductClass where
  | TRAIN                            -- 1
  | LIGHT_RAIL                       -- 4
  | BUS                              -- 5
  | COACH                            -- 7
  | FERRY                            -- 9
  | SCHOOL_BUS                       -- 11
  | WALKING                          -- 99
  | WALKING_FOOTPATH                 -- 100
  | BICYCLE                          -- 101
  | TAKE_BICYCLE_ON_PUBLIC_TRANSPORT -- 102
  | KISS_AND_RIDE                    -- 103
  | PARK_AND_RIDE                    -- 104
  | TAXI                             -- 105
  | CAR                              -- 106
deriving DecidableEq, Repr, Fintype

/-- Python equality between a `RouteProductClass` member and an `int` literal.
`RouteProductClass` derives from plain `Enum`, not `IntEnum`, so an enum
member is equal only to itself and never compares equal to an integer: the
test is always `false`, whatever the integer is. -/
def pyEnumEqInt (_ : RouteProductClass) (_ : Int) : Bool := false

structure JourneyFareZone where
deriving DecidableEq, Repr

/-- `JourneyFareTicket`: `person` is the `Literal["ADULT", "CHILD", "SCHOLAR",
"SENIOR"]` string; `priceBrutto` is a `decimal.Decimal`, modelled exactly. -/
structure JourneyFareTicket where
  id : String
  name : String
  comment : String
  person : String
  priceLevel : Option String
  priceBrutto : ℚ
deriving DecidableEq, Repr

structure Fare where
  tickets : List JourneyFareTicket
  zones : Option (List JourneyFareZone)
deriving DecidableEq, Repr

structure AdditionalInfoResponseTimestamps where
  creation : PyDateTime
  lastModification : PyDateTime
deriving DecidableEq, Repr

/-- `JourneyLegStopInfo`: `priority` is the `Literal["veryLow", "low",
"normal", "high", "veryHigh"]` string. -/
structure JourneyLegStopInfo where
  timestamps : Option AdditionalInfoResponseTimestamps
  priority : String
  id : String
  version : Int
  urlText : Option String
  url : Option String
  content : Option String
  subtitle : Option String
deriving DecidableEq, Repr

structure JourneyLegStopProperties where
  occupancy : Option String
deriving DecidableEq, Repr

structure JourneyLegStop where
  id : String
  name : String
  disassembledName : Option String
  type : String
  departureTimeEstimated : Option PyDateTime
  departureTimePlanned : Option PyDateTime
  arrivalTimeEstimated : Option PyDateTime
  arrivalTimePlanned : Option PyDateTime
  properties : JourneyLegStopProperties
deriving DecidableEq, Repr

/-- `RouteProduct`: `klass` is the field aliased `class` in the wire format. -/
structure RouteProduct where
  name : String
  klass : RouteProductClass
  iconId : Int
deriving DecidableEq, Repr

/-- `TripTransportation.properties`: `realtime_trip_id` is the field aliased
`RealtimeTripId`, the join key into the realtime feed. -/
structure TripTransportationProperties where
  realtime_trip_id : Option String
deriving DecidableEq, Repr

structure TripTransportation where
  id : Option String
  name : Option String
  disassembledName : Option String
  number : Option String
  iconId : Option Int
  description : Option String
  product : RouteProduct
  properties : TripTransportationProperties
deriving DecidableEq, Repr

structure JourneyLeg where
  duration : Int
  distance : Option Int
  isRealtimeControlled : Option Bool
  origin : JourneyLegStop
  destination : JourneyLegStop
  transportation : Option TripTransportation
  infos : List JourneyLegStopInfo
deriving DecidableEq, Repr

structure Journey where
  rating : Option Int
  isAdditional : Int
  legs : List JourneyLeg
  fare : Fare
deriving DecidableEq, Repr

structure TripRequestResponse where
  version : String
  journeys : List Journey
deriving DecidableEq, Repr

/-! ### GTFS realtime feed (`gtfs_realtime_pb2.FeedMessage`, the parts the
component reads: `feed.entity[i].vehicle.trip.trip_id` and
`vehicle.position.{latitude, longitude}`) -/

structure TripDescriptor where
  trip_id : String
deriving DecidableEq, Repr

structure FeedPosition where
  latitude : ℚ
  longitude : ℚ
deriving DecidableEq, Repr

structure VehiclePosition where
  trip : TripDescriptor
  position : FeedPosition
deriving DecidableEq, Repr

structure FeedEntity where
  vehicle : VehiclePosition
deriving DecidableEq, Repr

structure FeedMessage where
  entity : List FeedEntity
deriving DecidableEq, Repr

/-! ### Journey utilities (`transportnsw_client/utils.py`) -/

/-- `get_first_nonwalking_leg`: returns the first leg whose
`transportation.product.klass` is neither `WALKING` nor `WALKING_FOOTPATH`
(a membership test on the two enum members, correctly matched here);
`Except.error .attributeError` models the `AttributeError` raised when a
scanned leg's `transportation` is `None`. -/
def get_first_nonwalking_leg : List JourneyLeg → Except PyErr (Option JourneyLeg)
  | [] => .ok none
  | leg :: rest =>
    match leg.transportation with
    | none => .error .attributeError
    | some t =>
      if ¬ (t.product.klass = .WALKING ∨ t.product.klass = .WALKING_FOOTPATH) then
        .ok (some leg)
      else
        get_first_nonwalking_leg rest

/-- Loop body of `count_trip_changes`, threading the `changes` accumulator:
`changes` starts at `-1` and is incremented for every leg for which
`leg.transportation.product.klass not in (99, 100)` holds — a comparison of
an enum member against `int` literals, i.e. `pyEnumEqInt`. -/
def count_trip_changes_go : List JourneyLeg → Int → Except PyErr Int
  | [], changes => .ok changes
  | leg :: rest, changes =>
    match leg.transportation with
    | none => .error .attributeError
    | some t =>
      if ¬ (pyEnumEqInt t.product.klass 99 ∨ pyEnumEqInt t.product.klass 100) then
        count_trip_changes_go rest (changes + 1)
      else
        count_trip_changes_go rest changes

/-- `count_trip_changes` from `utils.py`. -/
def count_trip_changes (legs : List JourneyLeg) : Except PyErr Int :=
  count_trip_changes_go legs (-1)

/-- `get_ticket`: first ticket whose `person` equals the requested category. -/
def get_ticket : List JourneyFareTicket → String → Option JourneyFareTicket
  | [], _ => none
  | ticket :: rest, person =>
    if ticket.person = person then some ticket else get_ticket rest person

/-- `find_realtime_info`: first feed entity whose `vehicle.trip.trip_id`
equals the realtime trip id (the loop falls off the end returning `None`). -/
def find_realtime_info_go : List FeedEntity → String → Option FeedEntity
  | [], _ => none
  | e :: rest, realtime_trip_id =>
    if e.vehicle.trip.trip_id = realtime_trip_id then some e
    else find_realtime_info_go rest realtime_trip_id

def find_realtime_info (feed : FeedMessage) (realtime_trip_id : String) :
    Option FeedEntity :=
  find_realtime_info_go feed.entity realtime_trip_id

/-- `get_gtfs_mode` from `utils.py`: the `if/elif` chain mapping a product
class to the realtime feed's mode key. -/
def get_gtfs_mode (klass : RouteProductClass) : Option String :=
  if klass = .BUS then some "buses"
  else if klass = .FERRY then some "ferries"
  else if klass = .LIGHT_RAIL then some "lightrail"
  else if klass = .TRAIN then some "sydneytrains"
  else none

/-! ### Journey planner client (`transportnsw_client/__init__.py`) -/

/-- `ModeOfTransport`, the `Literal` of the six filterable modes. -/
inductive ModeOfTransport where
  | train
  | light_rail
  | bus
  | coach
  | ferry
  | school_bus
deriving DecidableEq, Repr, Fintype

/-- `excl_mot_map`: mode → upstream exclusion-parameter name. -/
def excl_mot_map : ModeOfTransport → String
  | .train => "exclMOT_1"
  | .light_rail => "exclMOT_4"
  | .bus => "exclMOT_5"
  | .coach => "exclMOT_7"
  | .ferry => "exclMOT_9"
  | .school_bus => "exclMOT_11"

/-- The keys of `excl_mot_map`, in the dictionary's insertion order. -/
def excl_mot_map_keys : List ModeOfTransport :=
  [.train, .light_rail, .bus, .coach, .ferry, .school_bus]

/-- Python truthiness of an `Optional[List]` argument: `None` and the empty
list are falsy. -/
def pyTruthyList {α : Type} : Option (List α) → Bool
  | some (_ :: _) => true
  | _ => false

/-- `get_exclude_mot_params`: builds the dict of exclusion parameters.
`if include_mot:` is a truthiness test, so `None` and `[]` both fall through
to the `elif exclude_mot is not None:` branch. The Python code iterates a
set difference in unspecified order; the dict's key/value content is what is
modelled, here in `excl_mot_map` insertion order. -/
def get_exclude_mot_params (include_mot exclude_mot : Option (List ModeOfTransport)) :
    List (String × String) :=
  if pyTruthyList include_mot then
    ("excludedMeans", "checkbox") ::
      ((excl_mot_map_keys.filter (fun m => ¬ m ∈ include_mot.getD [])).map
        (fun m => (excl_mot_map m, "1")))
  else if exclude_mot.isSome then
    ("excludedMeans", "checkbox") ::
      ((exclude_mot.getD []).map (fun m => (excl_mot_map m, "1")))
  else
    []

/-- `TransportNSWClient.get_trip`, cut at the transmission boundary: the
result is the association list of query parameters the method would transmit
(`Except.ok`), or the `AssertionError` it raises before any network request
(`Except.error`). `now` stands for `datetime.datetime.now()`, used when
neither `depart_at` nor `arrive_by` is given (`itd = depart_at or arrive_by
or datetime.datetime.now()`). -/
def get_trip (origin destination : String) (num_journeys : Nat)
    (depart_at arrive_by : Option PyDateTime)
    (include_mot exclude_mot : Option (List ModeOfTransport))
    (now : PyDateTime) : Except ClientError (List (String × String)) :=
  if depart_at.isSome ∧ arrive_by.isSome then
    .error (.assertionError "Unable to specify both depart_at and arrive_by")
  else if include_mot.isSome ∧ exclude_mot.isSome then
    .error (.assertionError "Unable to specify both include_mot and exclude_mot")
  else
    let exclude_mot_params := get_exclude_mot_params include_mot exclude_mot
    let itd := (depart_at.getD (arrive_by.getD now))
    .ok ([("outputFormat", "rapidJSON"),
          ("depArrMacro", if arrive_by.isSome then "arr" else "dep"),
          ("itdDate", itd.ymd),
          ("itdTime", itd.hm),
          ("type_origin", "any"),
          ("type_destination", "any"),
          ("name_origin", origin),
          ("name_destination", destination),
          ("calcNumberOfTrips", toString num_journeys),
          ("version", "10.2.1.42"),
          ("TfNSWTR", "true")] ++ exclude_mot_params)

/-! ### Realtime feed cache (`GTFSCache` in `transportnsw/__init__.py`)

`get_gtfs_feed` takes the cache's lock and calls the `lru_cache()`-memoized
`_get_gtfs_feed(mode=mode, ttl_hash=round(time.time() / 60))`; the lock
serializes concurrent callers, so the embedding is the sequential semantics
of one locked call. `lru_cache()` keeps its default `maxsize=128` entries in
recency order, evicting the least recently used entry on overflow; it never
evicts by key age. -/

/-- Python's `round` to an integer on an exact rational: round half to even
(banker's rounding). -/
def pythonRound (q : ℚ) : ℤ :=
  if q - (⌊q⌋ : ℚ) < 1/2 then ⌊q⌋
  else if 1/2 < q - (⌊q⌋ : ℚ) then ⌊q⌋ + 1
  else if ⌊q⌋ % 2 = 0 then ⌊q⌋ else ⌊q⌋ + 1

/-- The memoization table of `_get_gtfs_feed` plus a count of the underlying
`client.get_realtime_feed` fetches performed so far. Entries are keyed by
the call arguments `(mode, ttl_hash)` and kept most-recently-used first. -/
structure CacheState where
  entries : List ((String × ℤ) × FeedMessage)
  fetchCount : Nat
deriving DecidableEq, Repr

/-- Lookup in the memoization table. -/
def cacheLookup (key : String × ℤ) : List ((String × ℤ) × FeedMessage) → Option FeedMessage
  | [] => none
  | e :: rest => if e.1 = key then some e.2 else cacheLookup key rest

/-- `GTFSCache.get_gtfs_feed(mode)` at wall-clock time `now` (seconds):
computes `ttl_hash = round(now / 60)`, then consults the `lru_cache()`-backed
`_get_gtfs_feed`. On a hit the cached feed is returned and its entry moves to
the front; on a miss `fetch` (the underlying `client.get_realtime_feed`,
indexed by the fetch count so distinct fetches are distinguishable) is
invoked, the result is memoized, and the least recently used entry is
dropped if the table would exceed 128 entries. -/
def get_gtfs_feed (fetch : Nat → String → FeedMessage) (mode : String)
    (now : ℚ) (st : CacheState) : FeedMessage × CacheState :=
  let key : String × ℤ := (mode, pythonRound (now / 60))
  match cacheLookup key st.entries with
  | some v => (v, { st with entries := (key, v) :: st.entries.filter (fun e => e.1 ≠ key) })
  | none =>
    let v := fetch st.fetchCount mode
    (v, { entries := ((key, v) :: st.entries).take 128, fetchCount := st.fetchCount + 1 })

/-! ### Retrieval orchestrator (`async_update_data` in
`transportnsw/__init__.py`) -/

/-- The per-journey body of `async_update_data`'s loop: select the first
non-walking leg; if present, read `transportation.properties.realtime_trip_id`
(an `AttributeError` if that leg's `transportation` is `None`) and
`get_gtfs_mode` of its product class; fetch the feed and scan it only when
both are present. `feedOf` stands for `gtfs_cache.get_gtfs_feed`. -/
def journey_realtime (feedOf : String → FeedMessage) (journey : Journey) :
    Except PyErr (Option FeedEntity) :=
  match get_first_nonwalking_leg journey.legs with
  | .error e => .error e
  | .ok none => .ok none
  | .ok (some origin_leg) =>
    match origin_leg.transportation with
    | none => .error .attributeError
    | some t =>
      let realtime_trip_id := t.properties.realtime_trip_id
      let mode := get_gtfs_mode t.product.klass
      match realtime_trip_id, mode with
      | some rid, some m => .ok (find_realtime_info (feedOf m) rid)
      | _, _ => .ok none

/-- The journey loop of `async_update_data`: one `(journey, realtime)` pair
appended per journey, in response order. -/
def async_update_data_go (feedOf : String → FeedMessage) :
    List Journey → Except PyErr (List (Journey × Option FeedEntity))
  | [] => .ok []
  | j :: rest =>
    match journey_realtime feedOf j with
    | .error e => .error e
    | .ok realtime =>
      match async_update_data_go feedOf rest with
      | .error e => .error e
      | .ok pairs => .ok ((j, realtime) :: pairs)

/-- `async_update_data`: hydrates each journey of the trip response with its
realtime entity, if available. -/
def async_update_data (feedOf : String → FeedMessage) (resp : TripRequestResponse) :
    Except PyErr (List (Journey × Option FeedEntity)) :=
  async_update_data_go feedOf resp.journeys

/-! ### Concrete fixtures used by counterexamples and witnesses -/

/-- A minimal stop record. -/
def sampleStop : JourneyLegStop :=
  { id := "200060", name := "Central Station", disassembledName := none,
    type := "stop", departureTimeEstimated := none, departureTimePlanned := none,
    arrivalTimeEstimated := none, arrivalTimePlanned := none,
    properties := { occupancy := none } }

/-- A transportation record with the given product class and realtime id. -/
def mkTransportation (klass : RouteProductClass) (rid : Option String) :
    TripTransportation :=
  { id := some "nsw:400", name := some "Sydney Buses Network",
    disassembledName := none, number := some "400", iconId := some 23,
    description := none,
    product := { name := "bus", klass := klass, iconId := 5 },
    properties := { realtime_trip_id := rid } }

/-- A leg with the given transportation. -/
def mkLeg (t : Option TripTransportation) : JourneyLeg :=
  { duration := 600, distance := some 1200, isRealtimeControlled := none,
    origin := sampleStop, destination := sampleStop,
    transportation := t, infos := [] }

def walkLeg : JourneyLeg := mkLeg (some (mkTransportation .WALKING none))

def busLeg : JourneyLeg := mkLeg (some (mkTransportation .BUS (some "T1")))

/-- A leg whose `transportation` is absent (`None`). -/
def noTransLeg : JourneyLeg := mkLeg none

def sampleFare : Fare := { tickets := [], zones := none }

def mkJourney (legs : List JourneyLeg) : Journey :=
  { rating := none, isAdditional := 0, legs := legs, fare := sampleFare }

/-- A fetch function whose result records which fetch invocation produced it:
the `i`-th fetch returns a feed whose sole entity carries trip id
`toString i`, so two distinct fetches return distinct feeds. -/
def fetchEx (i : Nat) (_ : String) : FeedMessage :=
  { entity := [{ vehicle := { trip := { trip_id := toString i },
                              position := { latitude := 0, longitude := 0 } } }] }

/-- A leg is a walking leg in the sense of `get_first_nonwalking_leg`:
its `transportation` is present and carries the `WALKING` or
`WALKING_FOOTPATH` product class. (`false` for an absent `transportation`,
which that function does not survive.) -/
def legWalking (g : JourneyLeg) : Bool :=
  match g.transportation with
  | some t => t.product.klass = .WALKING ∨ t.product.klass = .WALKING_FOOTPATH
  | none => false

def adultTicket : JourneyFareTicket :=
  { id := "1", name := "Opal trip", comment := "", person := "ADULT",
    priceLevel := none, priceBrutto := 9/2 }

def childTicket : JourneyFareTicket :=
  { id := "2", name := "Opal trip", comment := "", person := "CHILD",
    priceLevel := none, priceBrutto := 9/4 }

def someNow : PyDateTime := { ymd := "20240101", hm := "0900" }

/-! ## Helper lemmas -/

/-- `count_trip_changes_go` increments once per leg whenever every leg's
`transportation` is present, because the enum-vs-int membership test
`klass not in (99, 100)` is identically true. -/
theorem count_trip_changes_go_present :
    ∀ (legs : List JourneyLeg) (c : Int),
      (∀ g ∈ legs, g.transportation.isSome = true) →
      count_trip_changes_go legs c = .ok (c + legs.length) := by
  intro legs
  induction legs with
  | nil => intro c _; simp [count_trip_changes_go]
  | cons leg rest ih =>
    intro c h
    have hleg : leg.transportation.isSome = true := h leg (by simp)
    obtain ⟨t, ht⟩ := Option.isSome_iff_exists.mp hleg
    have hrest : ∀ g ∈ rest, g.transportation.isSome = true := by
      intro g hg; exact h g (by simp [hg])
    have hstep : count_trip_changes_go (leg :: rest) c = count_trip_changes_go rest (c + 1) := by
      simp [count_trip_changes_go, ht, pyEnumEqInt]
    rw [hstep, ih (c + 1) hrest]
    congr 1
    simp only [List.length_cons]
    push_cast
    ring

/-- Walking legs (in the sense of `legWalking`) are skipped by
`get_first_nonwalking_leg`. -/
theorem get_first_nonwalking_leg_skips_walking :
    ∀ (w rest : List JourneyLeg), (∀ g ∈ w, legWalking g = true) →
      get_first_nonwalking_leg (w ++ rest) = get_first_nonwalking_leg rest := by
  intro w
  induction w with
  | nil => intro rest _; simp
  | cons g tail ih =>
    intro rest h
    have hg : legWalking g = true := h g (by simp)
    unfold legWalking at hg
    cases ht : g.transportation with
    | none => rw [ht] at hg; simp at hg
    | some t =>
      rw [ht] at hg
      simp only [decide_eq_true_eq] at hg
      have htail : ∀ x ∈ tail, legWalking x = true := by
        intro x hx; exact h x (by simp [hx])
      simp only [List.cons_append, get_first_nonwalking_leg, ht, hg, not_true_eq_false,
        if_false]
      exact ih rest htail

/-! ## Claims -/

/-- C6 (confirmed): `get_gtfs_mode` is total on the closed
`RouteProductClass` enumeration and maps BUS to `"buses"`, FERRY to
`"ferries"`, LIGHT_RAIL to `"lightrail"`, TRAIN to `"sydneytrains"`, and
every other classification to absent. -/
theorem get_gtfs_mode_table :
    get_gtfs_mode .BUS = some "buses" ∧
    get_gtfs_mode .FERRY = some "ferries" ∧
    get_gtfs_mode .LIGHT_RAIL = some "lightrail" ∧
    get_gtfs_mode .TRAIN = some "sydneytrains" ∧
    ∀ k : RouteProductClass,
      k ≠ .BUS → k ≠ .FERRY → k ≠ .LIGHT_RAIL → k ≠ .TRAIN →
      get_gtfs_mode k = none := by
  decide

/-- Witness for C6: the TAXI classification (non-walking, yet without a
realtime mode) maps to absent. -/
theorem get_gtfs_mode_table_witness : get_gtfs_mode .TAXI = none :=
  get_gtfs_mode_table.2.2.2.2 .TAXI (by decide) (by decide) (by decide) (by decide)

/-- C10 (confirmed): `get_ticket` returns absent when no ticket's `person`
equals the requested category, and otherwise returns the first ticket in
sequence order whose `person` equals the request (so the returned ticket's
`person` equals the request). -/
theorem get_ticket_selects_first_match
    (tickets pre post : List JourneyFareTicket) (t : JourneyFareTicket)
    (person : String) :
    ((∀ u ∈ tickets, u.person ≠ person) → get_ticket tickets person = none) ∧
    ((∀ u ∈ pre, u.person ≠ person) → t.person = person →
      get_ticket (pre ++ t :: post) person = some t) := by
  constructor
  · induction tickets with
    | nil => intro _; rfl
    | cons u rest ih =>
      intro h
      have hu : u.person ≠ person := h u (by simp)
      simp only [get_ticket, hu, if_false]
      exact ih fun x hx => h x (by simp [hx])
  · induction pre with
    | nil => intro _ ht; simp [get_ticket, ht]
    | cons u rest ih =>
      intro h ht
      have hu : u.person ≠ person := h u (by simp)
      simp only [List.cons_append, get_ticket, hu, if_false]
      exact ih (fun x hx => h x (by simp [hx])) ht

/-- Witness for C10: with a CHILD ticket ahead of the ADULT ticket, the
ADULT request selects the ADULT ticket. -/
theorem get_ticket_selects_first_match_witness :
    get_ticket ([childTicket] ++ adultTicket :: []) "ADULT" = some adultTicket :=
  (get_ticket_selects_first_match [] [childTicket] [] adultTicket "ADULT").2
    (by decide) (by decide)

/-- C2 (code_bug): the claim says `count_trip_changes` returns N-1 where N
counts the non-walking legs; the code instead returns (number of legs)-1
whenever every leg's `transportation` is present, because
`klass not in (99, 100)` compares a plain `Enum` member against `int`
literals and therefore holds for every leg, walking ones included. At the
failing input `[walking leg, bus leg]` the claim expects 0 but the code
returns 1. -/
theorem count_trip_changes_counts_every_leg :
    (∀ legs : List JourneyLeg, (∀ g ∈ legs, g.transportation.isSome = true) →
      count_trip_changes legs = .ok ((legs.length : Int) - 1)) ∧
    count_trip_changes [walkLeg, busLeg] = .ok 1 := by
  constructor
  · intro legs h
    unfold count_trip_changes
    rw [count_trip_changes_go_present legs (-1) h]
    congr 1
  · decide

/-- Witness for C2: a single walking leg already yields `0 = 1 - 1` trip
changes, though the claim expects `-1` for a walking-only sequence. -/
theorem count_trip_changes_counts_every_leg_witness :
    count_trip_changes [walkLeg] = .ok ((([walkLeg] : List JourneyLeg).length : Int) - 1) :=
  count_trip_changes_counts_every_leg.1 [walkLeg] (by decide)

/-- C3 (code_bug): the claim (and the spec) say a leg with absent
`transportation` is treated as a walking leg and never causes an error; the
code instead raises `AttributeError` in both `get_first_nonwalking_leg` and
`count_trip_changes` the moment such a leg is scanned, because it reads
`leg.transportation.product` on `None`. -/
theorem absent_transportation_raises :
    get_first_nonwalking_leg [noTransLeg] = .error .attributeError ∧
    count_trip_changes [noTransLeg] = .error .attributeError ∧
    get_first_nonwalking_leg [noTransLeg, busLeg] = .error .attributeError ∧
    count_trip_changes [noTransLeg, busLeg] = .error .attributeError := by
  refine ⟨by decide, by decide, by decide, by decide⟩

/-- C8 (confirmed): when both `depart_at` and `arrive_by` are set, or both
`include_mot` and `exclude_mot` are set, `get_trip` fails with the
mutual-exclusion `AssertionError` (the spec's `ConfigurationError`) and no
request parameters are produced or transmitted. -/
theorem get_trip_mutually_exclusive_args
    (origin destination : String) (num_journeys : Nat)
    (depart_at arrive_by : Option PyDateTime)
    (include_mot exclude_mot : Option (List ModeOfTransport))
    (now : PyDateTime) :
    (depart_at.isSome = true → arrive_by.isSome = true →
      get_trip origin destination num_journeys depart_at arrive_by
          include_mot exclude_mot now
        = .error (.assertionError "Unable to specify both depart_at and arrive_by")) ∧
    ((depart_at.isSome = false ∨ arrive_by.isSome = false) →
      include_mot.isSome = true → exclude_mot.isSome = true →
      get_trip origin destination num_journeys depart_at arrive_by
          include_mot exclude_mot now
        = .error (.assertionError "Unable to specify both include_mot and exclude_mot")) := by
  constructor
  · intro h1 h2
    simp [get_trip, h1, h2]
  · intro h h1 h2
    have hda : ¬ (depart_at.isSome = true ∧ arrive_by.isSome = true) := by
      rcases h with h | h <;> simp [h]
    simp [get_trip, hda, h1, h2]

/-- Witness for C8: both times set, and separately both mode filters set,
each produce the corresponding error. -/
theorem get_trip_mutually_exclusive_args_witness :
    get_trip "Central" "Wynyard" 1 (some someNow) (some someNow) none none someNow
      = .error (.assertionError "Unable to specify both depart_at and arrive_by") ∧
    get_trip "Central" "Wynyard" 1 none none (some [ModeOfTransport.bus])
        (some [ModeOfTransport.ferry]) someNow
      = .error (.assertionError "Unable to specify both include_mot and exclude_mot") :=
  ⟨(get_trip_mutually_exclusive_args "Central" "Wynyard" 1 (some someNow)
      (some someNow) none none someNow).1 rfl rfl,
   (get_trip_mutually_exclusive_args "Central" "Wynyard" 1 none none
      (some [ModeOfTransport.bus]) (some [ModeOfTransport.ferry]) someNow).2
      (Or.inl rfl) rfl rfl⟩

/-- `excl_mot_map` is injective. -/
theorem excl_mot_map_inj :
    ∀ a b : ModeOfTransport, excl_mot_map a = excl_mot_map b → a = b := by decide

/-- Every mode appears among `excl_mot_map`'s keys. -/
theorem mem_excl_mot_map_keys : ∀ m : ModeOfTransport, m ∈ excl_mot_map_keys := by decide

/-- No exclusion flag collides with a base query parameter of `get_trip`
(all base keys differ from every `exclMOT_<code>` key). -/
theorem excl_pair_notin_base (m : ModeOfTransport) (origin destination : String)
    (n : Nat) (itd : PyDateTime) (dep : String) :
    ¬ (excl_mot_map m, "1") ∈
      ([("outputFormat", "rapidJSON"), ("depArrMacro", dep), ("itdDate", itd.ymd),
        ("itdTime", itd.hm), ("type_origin", "any"), ("type_destination", "any"),
        ("name_origin", origin), ("name_destination", destination),
        ("calcNumberOfTrips", toString n), ("version", "10.2.1.42"),
        ("TfNSWTR", "true")] : List (String × String)) := by
  cases m <;> simp [excl_mot_map]

/-- For a non-empty inclusion list, the produced exclusion parameters hold
`exclMOT_<code> = "1"` exactly for the modes not included. -/
theorem mem_get_exclude_mot_params_include (l : List ModeOfTransport)
    (m : ModeOfTransport) (hne : l ≠ []) :
    ((excl_mot_map m, "1") ∈ get_exclude_mot_params (some l) none) ↔ ¬ m ∈ l := by
  cases l with
  | nil => exact absurd rfl hne
  | cons a as =>
    show ((excl_mot_map m, "1") ∈ ("excludedMeans", "checkbox") ::
      ((excl_mot_map_keys.filter (fun x => ¬ x ∈ (a :: as))).map
        (fun x => (excl_mot_map x, "1")))) ↔ ¬ m ∈ (a :: as)
    simp only [List.mem_cons, List.mem_map, List.mem_filter, Prod.mk.injEq,
      decide_eq_true_eq]
    constructor
    · rintro (⟨he, _⟩ | ⟨x, ⟨_, hxl⟩, hxm, _⟩)
      · exact absurd he (by cases m <;> simp [excl_mot_map])
      · exact (excl_mot_map_inj x m hxm) ▸ hxl
    · intro hm
      exact Or.inr ⟨m, ⟨mem_excl_mot_map_keys m, hm⟩, rfl, by trivial⟩

/-- C5 counterexample: with the empty inclusion list, the claim demands an
exclusion flag for every mode (none is listed), but `if include_mot:` is
falsy on `[]`, so `get_trip` transmits no exclusion flags at all: the
claimed equivalence fails for `train`. -/
theorem include_empty_no_exclusion_flags :
    get_trip "Central" "Wynyard" 1 none none (some ([] : List ModeOfTransport))
        none someNow
      = .ok [("outputFormat", "rapidJSON"), ("depArrMacro", "dep"),
             ("itdDate", "20240101"), ("itdTime", "0900"), ("type_origin", "any"),
             ("type_destination", "any"), ("name_origin", "Central"),
             ("name_destination", "Wynyard"), ("calcNumberOfTrips", "1"),
             ("version", "10.2.1.42"), ("TfNSWTR", "true")] ∧
    ¬ ModeOfTransport.train ∈ ([] : List ModeOfTransport) ∧
    ¬ (excl_mot_map .train, "1") ∈
      ([("outputFormat", "rapidJSON"), ("depArrMacro", "dep"),
        ("itdDate", "20240101"), ("itdTime", "0900"), ("type_origin", "any"),
        ("type_destination", "any"), ("name_origin", "Central"),
        ("name_destination", "Wynyard"), ("calcNumberOfTrips", "1"),
        ("version", "10.2.1.42"), ("TfNSWTR", "true")] : List (String × String)) := by
  refine ⟨by decide, by decide, by decide⟩

/-- C5 (corrected: non-empty inclusion lists): for every non-empty inclusion
list passed as `include_mot`, the parameters `get_trip` transmits contain
`exclMOT_<code> = "1"` for exactly the modes not in the list, and no
exclusion flag for any listed mode. -/
theorem get_trip_include_mot_complement
    (origin destination : String) (n : Nat) (now : PyDateTime)
    (l : List ModeOfTransport) (m : ModeOfTransport) (hne : l ≠ [])
    (params : List (String × String))
    (hok : get_trip origin destination n none none (some l) none now = .ok params) :
    ((excl_mot_map m, "1") ∈ params) ↔ ¬ m ∈ l := by
  have hok2 : ([("outputFormat", "rapidJSON"), ("depArrMacro", "dep"),
      ("itdDate", now.ymd), ("itdTime", now.hm), ("type_origin", "any"),
      ("type_destination", "any"), ("name_origin", origin),
      ("name_destination", destination), ("calcNumberOfTrips", toString n),
      ("version", "10.2.1.42"), ("TfNSWTR", "true")]
        ++ get_exclude_mot_params (some l) none) = params := by
    have := hok
    simp [get_trip] at this
    exact this
  rw [← hok2, List.mem_append]
  have hbase := excl_pair_notin_base m origin destination n now "dep"
  simp only [hbase, false_or]
  exact mem_get_exclude_mot_params_include l m hne

/-- Witness for C5: including only `bus` transmits the `train` exclusion
flag. -/
theorem get_trip_include_mot_complement_witness :
    ((excl_mot_map ModeOfTransport.train, "1") ∈
      ([("outputFormat", "rapidJSON"), ("depArrMacro", "dep"),
        ("itdDate", "20240101"), ("itdTime", "0900"), ("type_origin", "any"),
        ("type_destination", "any"), ("name_origin", "Central"),
        ("name_destination", "Wynyard"), ("calcNumberOfTrips", "1"),
        ("version", "10.2.1.42"), ("TfNSWTR", "true"),
        ("excludedMeans", "checkbox"), ("exclMOT_1", "1"), ("exclMOT_4", "1"),
        ("exclMOT_7", "1"), ("exclMOT_9", "1"), ("exclMOT_11", "1")] :
        List (String × String)))
    ↔ ¬ ModeOfTransport.train ∈ [ModeOfTransport.bus] :=
  get_trip_include_mot_complement "Central" "Wynyard" 1 someNow
    [ModeOfTransport.bus] ModeOfTransport.train (by decide) _ (by decide)

/-- C4 (confirmed): on legs whose `transportation` is present throughout,
`get_first_nonwalking_leg` returns the earliest non-walking leg in the
forward direction and, applied to the reversed sequence, the latest; on an
all-walking sequence it returns absent in both directions. -/
theorem first_nonwalking_forward_reverse
    (legs pre post : List JourneyLeg) (l : JourneyLeg) :
    ((∀ g ∈ legs, legWalking g = true) →
      get_first_nonwalking_leg legs = .ok none ∧
      get_first_nonwalking_leg legs.reverse = .ok none) ∧
    ((∀ g ∈ pre, legWalking g = true) → l.transportation.isSome = true →
      legWalking l = false →
      get_first_nonwalking_leg (pre ++ l :: post) = .ok (some l)) ∧
    ((∀ g ∈ post, legWalking g = true) → l.transportation.isSome = true →
      legWalking l = false →
      get_first_nonwalking_leg (pre ++ l :: post).reverse = .ok (some l)) := by
  have hhead : ∀ (g : JourneyLeg) (rest : List JourneyLeg),
      g.transportation.isSome = true → legWalking g = false →
      get_first_nonwalking_leg (g :: rest) = .ok (some g) := by
    intro g rest hs hw
    obtain ⟨t, ht⟩ := Option.isSome_iff_exists.mp hs
    unfold legWalking at hw
    rw [ht] at hw
    simp only [decide_eq_false_iff_not] at hw
    simp [get_first_nonwalking_leg, ht, hw]
  refine ⟨?_, ?_, ?_⟩
  · intro h
    constructor
    · have := get_first_nonwalking_leg_skips_walking legs [] h
      simpa using this
    · have hr : ∀ g ∈ legs.reverse, legWalking g = true := by
        intro g hg; exact h g (List.mem_reverse.mp hg)
      have := get_first_nonwalking_leg_skips_walking legs.reverse [] hr
      simpa using this
  · intro hpre hs hw
    rw [get_first_nonwalking_leg_skips_walking pre (l :: post) hpre]
    exact hhead l post hs hw
  · intro hpost hs hw
    have hrv : (pre ++ l :: post).reverse = post.reverse ++ l :: pre.reverse := by
      simp
    rw [hrv]
    have hpr : ∀ g ∈ post.reverse, legWalking g = true := by
      intro g hg; exact hpost g (List.mem_reverse.mp hg)
    rw [get_first_nonwalking_leg_skips_walking post.reverse (l :: pre.reverse) hpr]
    exact hhead l pre.reverse hs hw

/-- Witness for C4: walking legs surround a single bus leg; the bus leg is
selected in both directions, and an all-walking sequence yields absent. -/
theorem first_nonwalking_forward_reverse_witness :
    get_first_nonwalking_leg [walkLeg] = .ok none ∧
    get_first_nonwalking_leg ([walkLeg] ++ busLeg :: [walkLeg]) = .ok (some busLeg) ∧
    get_first_nonwalking_leg ([walkLeg] ++ busLeg :: [walkLeg]).reverse
      = .ok (some busLeg) :=
  ⟨((first_nonwalking_forward_reverse [walkLeg] [] [] busLeg).1 (by decide)).1,
   (first_nonwalking_forward_reverse [walkLeg] [walkLeg] [walkLeg] busLeg).2.1
     (by decide) (by decide) (by decide),
   (first_nonwalking_forward_reverse [walkLeg] [walkLeg] [walkLeg] busLeg).2.2
     (by decide) (by decide) (by decide)⟩

/-- A key absent from a memo table is absent from any of its prefixes. -/
theorem cacheLookup_take_none (key : String × ℤ) :
    ∀ (l : List ((String × ℤ) × FeedMessage)) (n : Nat),
      cacheLookup key l = none → cacheLookup key (l.take n) = none := by
  intro l
  induction l with
  | nil => intro n _; cases n <;> simp [List.take, cacheLookup]
  | cons e rest ih =>
    intro n h
    by_cases he : e.1 = key
    · simp [cacheLookup, he] at h
    · have hr : cacheLookup key rest = none := by simpa [cacheLookup, he] using h
      cases n with
      | zero => simp [List.take, cacheLookup]
      | succ k => simp [List.take, cacheLookup, he, ih k hr]

/-- Filtering out a key that the memo table holds strictly shrinks it. -/
theorem cacheLookup_filter_lt (key : String × ℤ) :
    ∀ (l : List ((String × ℤ) × FeedMessage)) (v : FeedMessage),
      cacheLookup key l = some v →
      (l.filter (fun e => e.1 ≠ key)).length < l.length := by
  intro l
  induction l with
  | nil => intro v h; simp [cacheLookup] at h
  | cons e rest ih =>
    intro v h
    by_cases he : e.1 = key
    · have hfe : (e :: rest).filter (fun e => e.1 ≠ key)
          = rest.filter (fun e => e.1 ≠ key) := by
        simp [List.filter_cons, he]
      rw [hfe]
      calc (rest.filter (fun e => e.1 ≠ key)).length
          ≤ rest.length := List.length_filter_le _ _
        _ < (e :: rest).length := by simp [List.length_cons]
    · have hr : cacheLookup key rest = some v := by simpa [cacheLookup, he] using h
      have hfe : (e :: rest).filter (fun e => e.1 ≠ key)
          = e :: rest.filter (fun e => e.1 ≠ key) := by
        simp [List.filter_cons, he]
      rw [hfe]
      simpa [List.length_cons] using ih v hr

/-- C1 counterexample: the calls at 10 s and 50 s share the floor-of-minute
bucket (`floor(now/60) = 0` for both), yet the cache keys them by
`round(now/60)` — 0 and 1 respectively — so two underlying fetches happen
and the two callers receive different feeds. -/
theorem same_floor_bucket_two_fetches :
    ⌊(10:ℚ) / 60⌋ = ⌊(50:ℚ) / 60⌋ ∧
    (get_gtfs_feed fetchEx "buses" 50
        (get_gtfs_feed fetchEx "buses" 10 ⟨[], 0⟩).2).2.fetchCount = 2 ∧
    (get_gtfs_feed fetchEx "buses" 50 (get_gtfs_feed fetchEx "buses" 10 ⟨[], 0⟩).2).1
      ≠ (get_gtfs_feed fetchEx "buses" 10 ⟨[], 0⟩).1 := by
  have h1 : pythonRound ((10:ℚ) / 60) = 0 := by unfold pythonRound; norm_num
  have h2 : pythonRound ((50:ℚ) / 60) = 1 := by unfold pythonRound; norm_num
  refine ⟨by norm_num, ?_, ?_⟩
  · simp [get_gtfs_feed, h1, h2, cacheLookup]
  · simp [get_gtfs_feed, h1, h2, cacheLookup, fetchEx]
    decide

/-- C1 (corrected: the bucket is `round(now/60)`, Python's banker's
rounding, not `floor(now/60)`): for any mode whose current-bucket key is not
yet cached, two sequential calls (the lock serializes concurrent callers) in
the same rounded bucket cause exactly one underlying fetch and both receive
that fetch's result; a second call whose rounded bucket differs triggers a
new fetch. -/
theorem gtfs_cache_round_bucket
    (fetch : Nat → String → FeedMessage) (mode : String) (t1 t2 : ℚ)
    (st : CacheState)
    (hmiss : cacheLookup (mode, pythonRound (t1 / 60)) st.entries = none) :
    (pythonRound (t1 / 60) = pythonRound (t2 / 60) →
      (get_gtfs_feed fetch mode t2 (get_gtfs_feed fetch mode t1 st).2).2.fetchCount
        = st.fetchCount + 1 ∧
      (get_gtfs_feed fetch mode t2 (get_gtfs_feed fetch mode t1 st).2).1
        = (get_gtfs_feed fetch mode t1 st).1) ∧
    (pythonRound (t1 / 60) ≠ pythonRound (t2 / 60) →
      cacheLookup (mode, pythonRound (t2 / 60)) st.entries = none →
      (get_gtfs_feed fetch mode t2 (get_gtfs_feed fetch mode t1 st).2).2.fetchCount
        = st.fetchCount + 2) := by
  have e1 : get_gtfs_feed fetch mode t1 st
      = (fetch st.fetchCount mode,
         ⟨((mode, pythonRound (t1 / 60)), fetch st.fetchCount mode)
            :: st.entries.take 127,
          st.fetchCount + 1⟩) := by
    simp only [get_gtfs_feed, hmiss]
    rfl
  constructor
  · intro hsame
    have hhit : cacheLookup (mode, pythonRound (t2 / 60))
        (((mode, pythonRound (t1 / 60)), fetch st.fetchCount mode)
          :: st.entries.take 127)
        = some (fetch st.fetchCount mode) := by
      rw [← hsame]
      simp [cacheLookup]
    rw [e1]
    simp only [get_gtfs_feed, hhit]
    exact ⟨trivial, trivial⟩
  · intro hdiff hmiss2
    have hne : ¬ (((mode, pythonRound (t1 / 60)) : String × ℤ)
        = (mode, pythonRound (t2 / 60))) := by
      intro hkey
      exact hdiff (congrArg Prod.snd hkey)
    have hmiss2' : cacheLookup (mode, pythonRound (t2 / 60))
        (((mode, pythonRound (t1 / 60)), fetch st.fetchCount mode)
          :: st.entries.take 127) = none := by
      rw [cacheLookup, if_neg hne]
      exact cacheLookup_take_none _ st.entries 127 hmiss2
    rw [e1]
    simp only [get_gtfs_feed, hmiss2']

/-- Witness for C1: two calls at the same instant (10 s, bucket 0) on the
empty cache perform one fetch and return the same feed. -/
theorem gtfs_cache_round_bucket_witness :
    (get_gtfs_feed fetchEx "buses" 10
        (get_gtfs_feed fetchEx "buses" 10 (⟨[], 0⟩ : CacheState)).2).2.fetchCount
      = (⟨[], 0⟩ : CacheState).fetchCount + 1 ∧
    (get_gtfs_feed fetchEx "buses" 10
        (get_gtfs_feed fetchEx "buses" 10 (⟨[], 0⟩ : CacheState)).2).1
      = (get_gtfs_feed fetchEx "buses" 10 (⟨[], 0⟩ : CacheState)).1 :=
  (gtfs_cache_round_bucket fetchEx "buses" 10 10 ⟨[], 0⟩ rfl).1 rfl

/-- C9 counterexample: the `lru_cache` never discards entries by bucket age.
After the insertion for bucket 5 (now = 300 s), the bucket-0 entry — five
windows older than the new entry, i.e. more than one window old — is still
cached. -/
theorem cache_retains_stale_entry :
    pythonRound ((0:ℚ) / 60) = 0 ∧
    pythonRound ((300:ℚ) / 60) = 5 ∧
    (5:ℤ) - 0 > 1 ∧
    (("buses", (0:ℤ)), fetchEx 0 "buses") ∈
      ((get_gtfs_feed fetchEx "buses" 300
          (get_gtfs_feed fetchEx "buses" 0 ⟨[], 0⟩).2).2).entries := by
  have h0 : pythonRound ((0:ℚ) / 60) = 0 := by unfold pythonRound; norm_num
  have h5 : pythonRound ((300:ℚ) / 60) = 5 := by unfold pythonRound; norm_num
  refine ⟨h0, h5, by norm_num, ?_⟩
  have e1 : (get_gtfs_feed fetchEx "buses" 0 (⟨[], 0⟩ : CacheState)).2
      = ⟨[(("buses", (0:ℤ)), fetchEx 0 "buses")], 1⟩ := by
    simp only [get_gtfs_feed, h0, cacheLookup]
    rfl
  have e2 : (get_gtfs_feed fetchEx "buses" 300
      (⟨[(("buses", (0:ℤ)), fetchEx 0 "buses")], 1⟩ : CacheState)).2
      = ⟨[(("buses", (5:ℤ)), fetchEx 1 "buses"),
          (("buses", (0:ℤ)), fetchEx 0 "buses")], 2⟩ := by
    have hlk : cacheLookup ("buses", pythonRound ((300:ℚ) / 60))
        [(("buses", (0:ℤ)), fetchEx 0 "buses")] = none := by
      rw [h5]
      simp [cacheLookup]
    simp only [get_gtfs_feed, hlk, h5]
    rfl
  rw [e1, e2]
  simp

/-- C9 (corrected: eviction is by LRU capacity, not bucket age): inserting a
new entry never discards entries merely for being more than one window old
(see the counterexample); instead the memo table's `lru_cache` bound holds —
starting from a table of at most 128 entries, the table still has at most
128 entries after any call, the least recently used entry being dropped on
overflow. -/
theorem gtfs_cache_bounded (fetch : Nat → String → FeedMessage) (mode : String)
    (now : ℚ) (st : CacheState) (h : st.entries.length ≤ 128) :
    ((get_gtfs_feed fetch mode now st).2).entries.length ≤ 128 := by
  cases hlk : cacheLookup (mode, pythonRound (now / 60)) st.entries with
  | some v =>
    have hlt := cacheLookup_filter_lt (mode, pythonRound (now / 60)) st.entries v hlk
    simp only [get_gtfs_feed, hlk, List.length_cons]
    omega
  | none =>
    simp only [get_gtfs_feed, hlk]
    calc ((((mode, pythonRound (now / 60)), fetch st.fetchCount mode)
            :: st.entries).take 128).length
        ≤ 128 := List.length_take_le _ _

/-- Witness for C9: a call on the empty cache leaves at most 128 entries. -/
theorem gtfs_cache_bounded_witness :
    ((get_gtfs_feed fetchEx "buses" 0 (⟨[], 0⟩ : CacheState)).2).entries.length ≤ 128 :=
  gtfs_cache_bounded fetchEx "buses" 0 ⟨[], 0⟩ (by decide)

/-- On legs whose `transportation` is present throughout,
`get_first_nonwalking_leg` cannot raise, and any leg it returns is one of
the scanned legs. -/
theorem first_nonwalking_ok_of_present :
    ∀ legs : List JourneyLeg, (∀ g ∈ legs, g.transportation.isSome = true) →
      ∃ r, get_first_nonwalking_leg legs = .ok r ∧
        ∀ leg, r = some leg → leg ∈ legs := by
  intro legs
  induction legs with
  | nil => intro _; exact ⟨none, rfl, by simp⟩
  | cons g rest ih =>
    intro h
    obtain ⟨t, ht⟩ := Option.isSome_iff_exists.mp (h g (by simp))
    by_cases hw : t.product.klass = .WALKING ∨ t.product.klass = .WALKING_FOOTPATH
    · obtain ⟨r, hr, hmem⟩ := ih fun x hx => h x (by simp [hx])
      refine ⟨r, ?_, ?_⟩
      · simp [get_first_nonwalking_leg, ht, hw, hr]
      · intro leg hl
        exact List.mem_cons_of_mem _ (hmem leg hl)
    · refine ⟨some g, ?_, ?_⟩
      · simp [get_first_nonwalking_leg, ht, hw]
      · intro leg hl
        cases hl
        exact List.mem_cons_self _ _

/-- On a journey whose legs all carry `transportation`, the per-journey body
of the update loop cannot raise, and it pairs the journey with absent
realtime info whenever the first non-walking leg is absent, its realtime
trip id is absent, or its product class has no realtime mode. -/
theorem journey_realtime_ok (feedOf : String → FeedMessage) (j : Journey)
    (h : ∀ g ∈ j.legs, g.transportation.isSome = true) :
    ∃ r, journey_realtime feedOf j = .ok r ∧
      (get_first_nonwalking_leg j.legs = .ok none → r = none) ∧
      (∀ leg t, get_first_nonwalking_leg j.legs = .ok (some leg) →
        leg.transportation = some t →
        (t.properties.realtime_trip_id = none ∨
          get_gtfs_mode t.product.klass = none) →
        r = none) := by
  obtain ⟨ropt, hro, hmem⟩ := first_nonwalking_ok_of_present j.legs h
  cases ropt with
  | none =>
    refine ⟨none, ?_, fun _ => rfl, fun _ _ _ _ _ => rfl⟩
    simp only [journey_realtime, hro]
  | some leg =>
    obtain ⟨t, ht⟩ := Option.isSome_iff_exists.mp (h leg (hmem leg rfl))
    cases hrid : t.properties.realtime_trip_id with
    | none =>
      cases hmode : get_gtfs_mode t.product.klass with
      | none =>
        refine ⟨none, ?_, fun _ => rfl, fun _ _ _ _ _ => rfl⟩
        simp only [journey_realtime, hro, ht, hrid, hmode]
      | some m =>
        refine ⟨none, ?_, fun _ => rfl, fun _ _ _ _ _ => rfl⟩
        simp only [journey_realtime, hro, ht, hrid, hmode]
    | some rid =>
      cases hmode : get_gtfs_mode t.product.klass with
      | none =>
        refine ⟨none, ?_, fun _ => rfl, fun _ _ _ _ _ => rfl⟩
        simp only [journey_realtime, hro, ht, hrid, hmode]
      | some m =>
        refine ⟨find_realtime_info (feedOf m) rid, ?_, ?_, ?_⟩
        · simp only [journey_realtime, hro, ht, hrid, hmode]
        · intro hc
          rw [hro] at hc
          exact absurd hc (by simp)
        · intro leg' t' hsome' ht' hor
          rw [hro] at hsome'
          have hleg : leg = leg' := by
            simpa using hsome'
          subst hleg
          rw [ht] at ht'
          cases ht'
          rcases hor with hor | hor
          · rw [hrid] at hor
            exact absurd hor (by simp)
          · rw [hmode] at hor
            exact absurd hor (by simp)

/-- The update loop pairs each journey, in order, with its realtime result
when every leg of every journey has `transportation` present. -/
theorem async_update_data_go_shape (feedOf : String → FeedMessage) :
    ∀ js : List Journey, (∀ j ∈ js, ∀ g ∈ j.legs, g.transportation.isSome = true) →
      ∃ out, async_update_data_go feedOf js = .ok out ∧
        out.map Prod.fst = js ∧
        ∀ p ∈ out,
          (get_first_nonwalking_leg p.1.legs = .ok none → p.2 = none) ∧
          (∀ leg t, get_first_nonwalking_leg p.1.legs = .ok (some leg) →
            leg.transportation = some t →
            (t.properties.realtime_trip_id = none ∨
              get_gtfs_mode t.product.klass = none) →
            p.2 = none) := by
  intro js
  induction js with
  | nil => intro _; exact ⟨[], rfl, rfl, by simp⟩
  | cons j rest ih =>
    intro h
    obtain ⟨r, hr, hc1, hc2⟩ := journey_realtime_ok feedOf j (h j (by simp))
    obtain ⟨out, hout, hmap, hprops⟩ := ih fun x hx => h x (by simp [hx])
    refine ⟨(j, r) :: out, ?_, ?_, ?_⟩
    · simp only [async_update_data_go, hr, hout]
    · simp [hmap]
    · intro p hp
      rcases List.mem_cons.mp hp with hpj | hpo
      · subst hpj
        exact ⟨hc1, hc2⟩
      · exact hprops p hpo

/-- C7 counterexample: a response whose only journey holds a single leg with
absent `transportation` — legal per the model — makes the update raise
`AttributeError` instead of producing the one `(journey, absent)` pair the
claim demands for every response. -/
theorem update_absent_transportation_error :
    async_update_data (fun _ => FeedMessage.mk [])
      ⟨"10.2.1.42", [mkJourney [noTransLeg]]⟩ = .error .attributeError := by
  decide

/-- C7 (corrected: restricted to responses in which every leg of every
journey has `transportation` present — otherwise the update raises, see the
counterexample): the update produces exactly one
(journey, realtime-entity-or-absent) pair per journey, in response order,
and the pair is `(journey, absent)` whenever the first non-walking leg is
absent, its `realtime_trip_id` is absent, or its classification maps to no
realtime mode. -/
theorem async_update_pairs_shape (feedOf : String → FeedMessage)
    (resp : TripRequestResponse)
    (h : ∀ j ∈ resp.journeys, ∀ g ∈ j.legs, g.transportation.isSome = true) :
    ∃ out, async_update_data feedOf resp = .ok out ∧
      out.map Prod.fst = resp.journeys ∧
      ∀ p ∈ out,
        (get_first_nonwalking_leg p.1.legs = .ok none → p.2 = none) ∧
        (∀ leg t, get_first_nonwalking_leg p.1.legs = .ok (some leg) →
          leg.transportation = some t →
          (t.properties.realtime_trip_id = none ∨
            get_gtfs_mode t.product.klass = none) →
          p.2 = none) :=
  async_update_data_go_shape feedOf resp.journeys h

/-- Witness for C7: a response with one all-walking journey yields exactly
one pair, carrying that journey. -/
theorem async_update_pairs_shape_witness :
    ∃ out, async_update_data (fun _ => FeedMessage.mk [])
        ⟨"10.2.1.42", [mkJourney [walkLeg]]⟩ = .ok out ∧
      out.map Prod.fst = [mkJourney [walkLeg]] :=
  match async_update_pairs_shape (fun _ => FeedMessage.mk [])
      ⟨"10.2.1.42", [mkJourney [walkLeg]]⟩ (by decide) with
  | ⟨out, h1, h2, _⟩ => ⟨out, h1, h2⟩

end TransportNSW
